import Mathlib

/-!
Verification of the deferred-media subsystem of `src/assets/js/site.js`
(smart media loader, YouTube SDK bootstrap, video portal controller),
as a shallow embedding: DOM / player state is explicit record state,
event handlers are state-transition functions, and JavaScript numbers
that can be `NaN` are modelled by an explicit `JSNum` type over `ℚ`.
-/

namespace Site

/-! ## Smart media loader (`initSmartMedia` / `loadImg`) -/

/-- Classification state of a DeferredMedia record: `Pending` before the
real source is assigned, `Loading` once `src` is set, `Loaded` / `Failed`
once the holder carries the `is-loaded` / `has-error` class. -/
inductive MediaStatus
  | Pending
  | Loading
  | Loaded
  | Failed
deriving DecidableEq, Repr

/-- State of one `img[data-src]` element together with its owning
`[data-component="smart-media"]` holder, as manipulated by `initSmartMedia`:
the `data-src` and `src` attributes, whether the `load` / `error` listeners
installed by `loadImg` are currently attached, the holder classes
`is-loaded` and `has-error`, and whether the element is still registered
with the IntersectionObserver. -/
structure ImgElem where
  dataSrc : Option String
  src : Option String
  loadListener : Bool
  errorListener : Bool
  holderLoaded : Bool
  holderError : Bool
  observed : Bool
deriving DecidableEq, Repr

/-- Function `loadImg` (site.js lines 124-147): read `data-src`; on a missing or
empty value return without doing anything; otherwise attach the `load` and
`error` listeners and assign `src`, which starts the fetch. -/
def loadImg (img : ImgElem) : ImgElem :=
  match img.dataSrc with
  | none => img
  | some s =>
    if s = "" then img
    else { img with loadListener := true, errorListener := true, src := some s }

/-- The `onLoad` listener (site.js lines 130-134): only runs while attached;
adds `is-loaded` to the holder and removes both listeners. -/
def fireLoad (img : ImgElem) : ImgElem :=
  if img.loadListener then
    { img with holderLoaded := true, loadListener := false, errorListener := false }
  else img

/-- The `onError` listener (site.js lines 136-140): only runs while attached;
adds `has-error` to the holder and removes both listeners. -/
def fireError (img : ImgElem) : ImgElem :=
  if img.errorListener then
    { img with holderError := true, loadListener := false, errorListener := false }
  else img

/-- Events that can reach one deferred image: the IntersectionObserver
visibility callback (site.js lines 151-157, which unobserves and then calls
`loadImg`), and the element's `load` / `error` completion signals. -/
inductive MediaEvent
  | visible
  | loadSignal
  | errorSignal
deriving DecidableEq, Repr

/-- One event dispatch on a deferred image. The observer callback ignores
elements it no longer observes (`io.unobserve` ran before `loadImg`), and
the completion signals are ignored once the listeners have been removed. -/
def mediaStep (img : ImgElem) : MediaEvent → ImgElem
  | .visible => if img.observed then loadImg { img with observed := false } else img
  | .loadSignal => fireLoad img
  | .errorSignal => fireError img

/-- Derived DeferredMedia classification of an element. -/
def status (img : ImgElem) : MediaStatus :=
  if img.holderLoaded then .Loaded
  else if img.holderError then .Failed
  else if img.src.isSome then .Loading
  else .Pending

/-- Invariant satisfied by every reachable deferred-image state: the two
listeners are attached and removed together, the holder never carries both
outcome classes, attached listeners imply the fetch has started and no
outcome has been recorded yet, a recorded outcome implies the fetch started
and the listeners were released, a started fetch whose outcome is still
open keeps its listeners, and an element still observed has not started. -/
def WFImg (img : ImgElem) : Prop :=
  img.errorListener = img.loadListener ∧
  ¬(img.holderLoaded = true ∧ img.holderError = true) ∧
  (img.loadListener = true →
    (img.src.isSome = true ∧ img.holderLoaded = false ∧ img.holderError = false ∧
     img.observed = false)) ∧
  ((img.holderLoaded = true ∨ img.holderError = true) →
    (img.src.isSome = true ∧ img.observed = false)) ∧
  ((img.src.isSome = true ∧ img.holderLoaded = false ∧ img.holderError = false) →
    img.loadListener = true) ∧
  (img.observed = true → img.src = none)

instance (img : ImgElem) : Decidable (WFImg img) := by
  unfold WFImg; infer_instance

/-- The transitions the spec allows for a DeferredMedia record: stay put,
start loading from Pending, or finalize from Loading. -/
def allowedTransition (s t : MediaStatus) : Prop :=
  s = t ∨ (s = .Pending ∧ t = .Loading) ∨
  (s = .Loading ∧ (t = .Loaded ∨ t = .Failed))

/-- A fresh `img[data-src]` scanned at init: no `src`, no listeners, no
outcome classes. -/
def freshImg (d : Option String) (obs : Bool) : ImgElem :=
  { dataSrc := d, src := none, loadListener := false, errorListener := false,
    holderLoaded := false, holderError := false, observed := obs }

/-- Function `initSmartMedia` (site.js lines 120-165): collect the `img[data-src]`
candidates; with no candidates do nothing; with an IntersectionObserver
register every candidate; otherwise call `loadImg` on every candidate at
once. -/
def initSmartMedia (ioAvailable : Bool) (candidates : List ImgElem) : List ImgElem :=
  if candidates.isEmpty then candidates
  else if ioAvailable then candidates.map (fun img => { img with observed := true })
  else candidates.map loadImg

/-! ## YouTube SDK bootstrap (`loadYouTubeApi`) -/

/-- State of the SDK bootstrap: the memoized `ytApiPromise` (identified by
an allocation number), whether `window.YT && window.YT.Player` is available,
whether a `script[data-youtube-iframe-api]` tag is in the document, how many
times this module appended the bootstrap script, the next promise
allocation number, and whether the memoized promise resolved at creation
time (rather than waiting on the global ready callback). -/
structure SdkState where
  ytApiPromise : Option Nat
  ytAvailable : Bool
  scriptTagPresent : Bool
  injections : Nat
  nextId : Nat
  resolvedNow : Bool
deriving DecidableEq, Repr

/-- Function `loadYouTubeApi` (site.js lines 231-267): return the memoized promise
when present; otherwise allocate the shared promise, resolving immediately
when the SDK object is already available, chaining onto the global ready
callback when a bootstrap script tag already exists, and otherwise
appending the bootstrap script exactly once before chaining the callback. -/
def loadYouTubeApi (s : SdkState) : SdkState × Nat :=
  match s.ytApiPromise with
  | some p => (s, p)
  | none =>
    let pid := s.nextId
    if s.ytAvailable then
      ({ s with ytApiPromise := some pid, nextId := pid + 1, resolvedNow := true }, pid)
    else if s.scriptTagPresent then
      ({ s with ytApiPromise := some pid, nextId := pid + 1 }, pid)
    else
      ({ s with
          ytApiPromise := some pid
          nextId := pid + 1
          injections := s.injections + 1
          scriptTagPresent := true }, pid)

/-- A sequence of `n` calls to `loadYouTubeApi`, collecting the promise
each caller receives. -/
def loadCalls : Nat → SdkState → SdkState × List Nat
  | 0, s => (s, [])
  | n + 1, s =>
    let r := loadYouTubeApi s
    let rest := loadCalls n r.1
    (rest.1, r.2 :: rest.2)

/-! ## Video portal controller (`initVideoPortals`) -/

/-- A JavaScript number: either `NaN` or an actual rational value. -/
inductive JSNum
  | nan
  | num (q : ℚ)
deriving DecidableEq, Repr

/-- JavaScript `>` on numbers: false whenever either side is `NaN`. -/
def jsGt : JSNum → JSNum → Bool
  | .num a, .num b => decide (b < a)
  | _, _ => false

/-- JavaScript `>=` on numbers: false whenever either side is `NaN`. -/
def jsGe : JSNum → JSNum → Bool
  | .num a, .num b => decide (b ≤ a)
  | _, _ => false

/-- JavaScript subtraction on numbers: `NaN` is absorbing. -/
def jsSub : JSNum → JSNum → JSNum
  | .num a, .num b => .num (a - b)
  | _, _ => .nan

/-- A raw `data-start` / `data-end` attribute value as seen by
`Number(portal.getAttribute(...) || '0')`: absent, the empty string, a
string that `Number` cannot parse, or a numeric string. -/
inductive AttrVal
  | missing
  | empty
  | nonNumeric
  | numeric (q : ℚ)
deriving DecidableEq, Repr

/-- Evaluation of `Number(attr || '0')` (site.js lines 283-284): a missing attribute
(`null`) and the empty string are falsy, so `'0'` is parsed, giving `0`;
a non-numeric string parses to `NaN`; a numeric string parses to its value. -/
def parseAttr : AttrVal → JSNum
  | .missing => .num 0
  | .empty => .num 0
  | .nonNumeric => .nan
  | .numeric q => .num q

/-- The `playerVars` record after the `delete undefined` pass (site.js
lines 294-311): `start` / `end` are present only when the parsed value is
`> 0`. -/
structure PlayerVars where
  autoplay : Nat
  controls : Nat
  modestbranding : Nat
  rel : Nat
  playsinline : Nat
  iv_load_policy : Nat
  fs : Nat
  disablekb : Nat
  start : Option JSNum
  endv : Option JSNum
  mute : Nat
deriving DecidableEq, Repr

/-- Construction of `playerVars` from the reduced-motion flag and the
parsed `data-start` / `data-end` values. -/
def mkPlayerVars (reduce : Bool) (start endv : JSNum) : PlayerVars :=
  { autoplay := if reduce then 0 else 1
    controls := 0
    modestbranding := 1
    rel := 0
    playsinline := 1
    iv_load_policy := 3
    fs := 0
    disablekb := 1
    start := if jsGt start (.num 0) then some start else none
    endv := if jsGt endv (.num 0) then some endv else none
    mute := 1 }

/-- Commands a handler issues against the player object. -/
inductive PlayerCmd
  | mute
  | playVideo
  | pauseVideo
  | seekTo (pos : JSNum)
deriving DecidableEq, Repr

/-- The numeric player states of the `YT_STATE` table (site.js lines
220-227). -/
def YT_STATE_UNSTARTED : Int := -1

/-- Constant `YT_STATE.ENDED`. -/
def YT_STATE_ENDED : Int := 0

/-- Constant `YT_STATE.PLAYING`. -/
def YT_STATE_PLAYING : Int := 1

/-- Constant `YT_STATE.PAUSED`. -/
def YT_STATE_PAUSED : Int := 2

/-- Per-portal timer state: the `loopTimer` variable and the set of interval
timers this portal has created and not yet cleared (`nextTimerId` feeds
fresh interval ids). -/
structure PortalRuntime where
  loopTimer : Option Nat
  activeTimers : List Nat
  nextTimerId : Nat
deriving DecidableEq, Repr

/-- Function `clearLoop` (site.js lines 315-320): when `loopTimer` is set, clear the
interval and null the variable; otherwise do nothing. -/
def clearLoop (r : PortalRuntime) : PortalRuntime :=
  match r.loopTimer with
  | none => r
  | some t => { r with loopTimer := none, activeTimers := r.activeTimers.erase t }

/-- Function `ensureLoop` (site.js lines 322-337): return without touching timers
unless `start > 0 && end > 0 && end > start`; otherwise cancel any prior
watchdog and install a fresh 250ms interval. -/
def ensureLoop (start endv : JSNum) (r : PortalRuntime) : PortalRuntime :=
  if !(jsGt start (.num 0) && jsGt endv (.num 0) && jsGt endv start) then r
  else
    let r1 := clearLoop r
    { loopTimer := some r1.nextTimerId
      activeTimers := r1.nextTimerId :: r1.activeTimers
      nextTimerId := r1.nextTimerId + 1 }

/-- Invariant of a portal's timer state: the portal's live interval timers
are exactly the one referenced by `loopTimer` (none when it is null). -/
def WFRuntime (r : PortalRuntime) : Prop :=
  r.activeTimers = r.loopTimer.toList

instance (r : PortalRuntime) : Decidable (WFRuntime r) := by
  unfold WFRuntime; infer_instance

/-- One execution of the watchdog interval body (site.js lines 327-336)
when `getCurrentTime()` returns `t`: seek back to `start` exactly when
`t >= end - 0.15`. -/
def watchdogTick (start endv : JSNum) (t : JSNum) : List PlayerCmd :=
  if jsGe t (jsSub endv (.num (15 / 100))) then [.seekTo start] else []

/-- The `onReady` handler body (site.js lines 344-355): mute, then issue
`playVideo` only when reduced motion was not requested. -/
def onReady (reduce : Bool) : List PlayerCmd :=
  if reduce then [.mute] else [.mute, .playVideo]

/-- The overlay start-button click handler (site.js lines 377-386): mute
then play, with no dependence on the reduced-motion flag. -/
def startBtnClick : List PlayerCmd := [.mute, .playVideo]

/-- Portal state visible to `onStateChange`: the `is-playing` class and the
timer state. -/
structure PortalView where
  isPlaying : Bool
  runtime : PortalRuntime
deriving DecidableEq, Repr

/-- The `onStateChange` handler (site.js lines 356-372): on `PLAYING` add
the `is-playing` class and run `ensureLoop`; on `ENDED` reissue
`seekTo(start)` and `playVideo` only when `start > 0`. -/
def onStateChange (start endv : JSNum) (state : Int) (p : PortalView) :
    PortalView × List PlayerCmd :=
  let p1 := if state = YT_STATE_PLAYING then
      { isPlaying := true, runtime := ensureLoop start endv p.runtime }
    else p
  let cmds := if state = YT_STATE_ENDED then
      (if jsGt start (.num 0) then [PlayerCmd.seekTo start, PlayerCmd.playVideo] else [])
    else []
  (p1, cmds)

/-- Attributes of one `.videoPortal[data-video="youtube"]` element read by
`initVideoPortals`. -/
structure PortalConfig where
  hasMount : Bool
  videoId : Option String
  dataStart : AttrVal
  dataEnd : AttrVal
deriving DecidableEq, Repr

/-- The per-portal configuration derived before player construction. -/
structure PortalInit where
  playerVars : PlayerVars
  start : JSNum
  endv : JSNum
deriving DecidableEq, Repr

/-- The per-portal setup of `initVideoPortals` (site.js lines 279-311) up
to player construction: skip the portal when the mount or the video id is
missing or empty (`!mount || !videoId`), otherwise parse the range
attributes and build `playerVars`. Total: no input makes it throw. -/
def initPortal (reduce : Bool) (c : PortalConfig) : Option PortalInit :=
  if !c.hasMount then none
  else
    match c.videoId with
    | none => none
    | some v =>
      if v = "" then none
      else
        let start := parseAttr c.dataStart
        let endv := parseAttr c.dataEnd
        some { playerVars := mkPlayerVars reduce start endv, start := start, endv := endv }

/-- One portal together with whether the embedded-player factory
(`new YT.Player`, site.js line 340) throws for it in the current
environment. -/
structure PortalEnv where
  cfg : PortalConfig
  ctorThrows : Bool
deriving DecidableEq, Repr

/-- Outcome of one portal's pass through the `portals.forEach` body. -/
inductive InitOutcome
  | skipped
  | constructed
  | faulted
deriving DecidableEq, Repr

/-- The `portals.forEach` loop of `initVideoPortals` (site.js lines
279-411): portals are processed in order; a portal with no mount or video
id is skipped before any factory call; a throw from the player factory
propagates out of the `forEach` callback, which aborts the iteration, so
portals after the fault receive no outcome at all. -/
def initVideoPortalsRun (reduce : Bool) : List PortalEnv → List InitOutcome
  | [] => []
  | p :: rest =>
    match initPortal reduce p.cfg with
    | none => .skipped :: initVideoPortalsRun reduce rest
    | some _ =>
      if p.ctorThrows then [.faulted]
      else .constructed :: initVideoPortalsRun reduce rest

/-- The cancelable resources of one portal: its timer state and whether the
IntersectionObserver subscription that pauses playback off-screen (site.js
lines 396-405) is active. -/
structure PortalResources where
  runtime : PortalRuntime
  visibilityObserverActive : Bool
deriving DecidableEq, Repr

/-- The `pagehide` handler registered per portal (site.js lines 408-410):
it calls `clearLoop()` and nothing else; in particular it never touches the
visibility observer. -/
def pagehideHandler (res : PortalResources) : PortalResources :=
  { res with runtime := clearLoop res.runtime }

/-! ## Theorems -/

/-- C4: For every reachable DeferredMedia record, every event moves the
status only along Pending→Loading→{Loaded, Failed}: well-formedness is
preserved, each single step is an allowed transition, from Loading the
`load` signal finalizes to Loaded (holder marked `is-loaded`) and the
`error` signal to Failed (holder marked `has-error`), Loaded and Failed are
absorbing (no move between them, no re-entry into Loading, no retry after
Failed), and a finalized record holds no listeners (both subscriptions
released). -/
theorem C4_deferred_media_lifecycle (img : ImgElem) (h : WFImg img) (e : MediaEvent) :
    WFImg (mediaStep img e) ∧
    allowedTransition (status img) (status (mediaStep img e)) ∧
    (status img = .Loading →
      status (fireLoad img) = .Loaded ∧ (fireLoad img).holderLoaded = true ∧
      status (fireError img) = .Failed ∧ (fireError img).holderError = true) ∧
    (status img = .Loaded → status (mediaStep img e) = .Loaded) ∧
    (status img = .Failed → status (mediaStep img e) = .Failed) ∧
    ((status (mediaStep img e) = .Loaded ∨ status (mediaStep img e) = .Failed) →
      (mediaStep img e).loadListener = false ∧ (mediaStep img e).errorListener = false) := by
  obtain ⟨d, sv, ll, el, hl, he, ob⟩ := img
  cases e <;> cases ll <;> cases el <;> cases hl <;> cases he <;> cases ob <;>
      rcases sv with _ | sv <;> rcases d with _ | s <;>
      first
        | (by_cases hs : s = "" <;>
            simp_all [WFImg, mediaStep, loadImg, fireLoad, fireError, status,
              allowedTransition])
        | simp_all [WFImg, mediaStep, loadImg, fireLoad, fireError, status,
            allowedTransition]

/-- Witness for C4 at a concrete freshly scanned image and the visibility
event. -/
theorem C4_deferred_media_lifecycle_witness :
    WFImg (freshImg (some "a.jpg") true) ∧
    (WFImg (mediaStep (freshImg (some "a.jpg") true) .visible) ∧
     allowedTransition (status (freshImg (some "a.jpg") true))
       (status (mediaStep (freshImg (some "a.jpg") true) .visible)) ∧
     (status (freshImg (some "a.jpg") true) = .Loading →
       status (fireLoad (freshImg (some "a.jpg") true)) = .Loaded ∧
       (fireLoad (freshImg (some "a.jpg") true)).holderLoaded = true ∧
       status (fireError (freshImg (some "a.jpg") true)) = .Failed ∧
       (fireError (freshImg (some "a.jpg") true)).holderError = true) ∧
     (status (freshImg (some "a.jpg") true) = .Loaded →
       status (mediaStep (freshImg (some "a.jpg") true) .visible) = .Loaded) ∧
     (status (freshImg (some "a.jpg") true) = .Failed →
       status (mediaStep (freshImg (some "a.jpg") true) .visible) = .Failed) ∧
     ((status (mediaStep (freshImg (some "a.jpg") true) .visible) = .Loaded ∨
       status (mediaStep (freshImg (some "a.jpg") true) .visible) = .Failed) →
       (mediaStep (freshImg (some "a.jpg") true) .visible).loadListener = false ∧
       (mediaStep (freshImg (some "a.jpg") true) .visible).errorListener = false)) :=
  ⟨by decide, C4_deferred_media_lifecycle (freshImg (some "a.jpg") true) (by decide) .visible⟩

/-- C8: When the IntersectionObserver primitive is unavailable,
`initSmartMedia` applies `loadImg` to every registered candidate in the
same synchronous pass, so every candidate with a configured (non-empty)
target source leaves Pending: its `src` is assigned and its status is
Loading. -/
theorem C8_fallback_loads_everything (cands : List ImgElem) (img : ImgElem)
    (hmem : img ∈ cands) (hsrc : ∃ s, img.dataSrc = some s ∧ s ≠ "")
    (hinit : img.src = none ∧ img.holderLoaded = false ∧ img.holderError = false) :
    initSmartMedia false cands = cands.map loadImg ∧
    loadImg img ∈ initSmartMedia false cands ∧
    (loadImg img).src = img.dataSrc ∧
    status (loadImg img) = .Loading := by
  obtain ⟨s, hd, hs⟩ := hsrc
  obtain ⟨h1, h2, h3⟩ := hinit
  have hne : cands ≠ [] := List.ne_nil_of_mem hmem
  have hinitsm : initSmartMedia false cands = cands.map loadImg := by
    simp [initSmartMedia, List.isEmpty_iff, hne]
  refine ⟨hinitsm, ?_, ?_, ?_⟩
  · rw [hinitsm]; exact List.mem_map_of_mem loadImg hmem
  · simp [loadImg, hd, hs]
  · simp [loadImg, status, hd, hs, h2, h3]

/-- Witness for C8 at a one-candidate page. -/
theorem C8_fallback_loads_everything_witness :
    initSmartMedia false [freshImg (some "a.jpg") false] =
        [freshImg (some "a.jpg") false].map loadImg ∧
    loadImg (freshImg (some "a.jpg") false) ∈
        initSmartMedia false [freshImg (some "a.jpg") false] ∧
    (loadImg (freshImg (some "a.jpg") false)).src =
        (freshImg (some "a.jpg") false).dataSrc ∧
    status (loadImg (freshImg (some "a.jpg") false)) = .Loading :=
  C8_fallback_loads_everything [freshImg (some "a.jpg") false]
    (freshImg (some "a.jpg") false) (by decide)
    ⟨"a.jpg", by decide, by decide⟩ (by decide)

/-- Once the promise is memoized, further calls return it unchanged and
touch nothing. -/
theorem loadCalls_memoized (n : Nat) (s : SdkState) (p : Nat)
    (h : s.ytApiPromise = some p) :
    loadCalls n s = (s, List.replicate n p) := by
  induction n with
  | zero => simp [loadCalls]
  | succ n ih =>
    have hcall : loadYouTubeApi s = (s, p) := by
      simp [loadYouTubeApi, h]
    simp [loadCalls, hcall, ih, List.replicate_succ]

/-- C3: Starting from a page that has not yet requested the SDK, any number
of `loadYouTubeApi` calls injects the bootstrap script at most once, every
caller receives the very same promise, and when the SDK object is already
available at the first call the promise resolves immediately and no
bootstrap script is ever injected. -/
theorem C3_sdk_bootstrap_singleton (s : SdkState) (h0 : s.ytApiPromise = none)
    (hinj : s.injections = 0) (n : Nat) :
    (loadCalls (n + 1) s).1.injections ≤ 1 ∧
    (∀ p ∈ (loadCalls (n + 1) s).2, p = s.nextId) ∧
    (s.ytAvailable = true →
      (loadCalls (n + 1) s).1.injections = 0 ∧
      (loadCalls (n + 1) s).1.resolvedNow = true) := by
  have hfirst : (loadYouTubeApi s).1.ytApiPromise = some s.nextId ∧
      (loadYouTubeApi s).2 = s.nextId ∧
      (loadYouTubeApi s).1.injections ≤ s.injections + 1 ∧
      (s.ytAvailable = true →
        (loadYouTubeApi s).1.injections = s.injections ∧
        (loadYouTubeApi s).1.resolvedNow = true) := by
    by_cases ha : s.ytAvailable <;> by_cases ht : s.scriptTagPresent <;>
      simp [loadYouTubeApi, h0, ha, ht]
  obtain ⟨hp1, hp2, hp3, hp4⟩ := hfirst
  have hmemo := loadCalls_memoized n (loadYouTubeApi s).1 s.nextId hp1
  have hunfold : loadCalls (n + 1) s =
      ((loadYouTubeApi s).1, (loadYouTubeApi s).2 :: List.replicate n s.nextId) := by
    simp [loadCalls, hmemo]
  rw [hunfold]
  dsimp only
  refine ⟨by omega, ?_, ?_⟩
  · intro p hp
    rcases List.mem_cons.mp hp with h | h
    · rw [h, hp2]
    · exact List.eq_of_mem_replicate h
  · intro ha
    have h5 := hp4 ha
    exact ⟨by rw [h5.1, hinj], h5.2⟩

/-- Witness for C3 with the SDK already available and three callers. -/
theorem C3_sdk_bootstrap_singleton_witness :
    (loadCalls 3 (SdkState.mk none true false 0 0 false)).1.injections ≤ 1 ∧
    (∀ p ∈ (loadCalls 3 (SdkState.mk none true false 0 0 false)).2,
      p = (SdkState.mk none true false 0 0 false).nextId) ∧
    ((SdkState.mk none true false 0 0 false).ytAvailable = true →
      (loadCalls 3 (SdkState.mk none true false 0 0 false)).1.injections = 0 ∧
      (loadCalls 3 (SdkState.mk none true false 0 0 false)).1.resolvedNow = true) :=
  C3_sdk_bootstrap_singleton (SdkState.mk none true false 0 0 false) rfl rfl 2

/-- C5: For a portal configured with `rangeStart = 10`, `rangeEnd = 20`,
the watchdog tick body issues exactly one `seekTo(10)` when the current
position has reached `20 - 0.15 = 19.85`, and no seek at all below that
threshold: the commands of a tick at position `t` are `[seekTo 10]` when
`19.85 ≤ t` and `[]` otherwise. -/
theorem C5_watchdog_seek_threshold (t : ℚ) :
    watchdogTick (.num 10) (.num 20) (.num t) =
      (if 19.85 ≤ t then [PlayerCmd.seekTo (.num 10)] else []) ∧
    jsSub (.num 20) (.num (15 / 100)) = .num 19.85 := by
  constructor
  · by_cases h : (19.85 : ℚ) ≤ t
    · have h' : jsGe (.num t) (jsSub (.num 20) (.num (15 / 100))) = true := by
        simp only [jsSub, jsGe, decide_eq_true_eq]
        calc (20 : ℚ) - 15 / 100 = 19.85 := by norm_num
          _ ≤ t := h
      simp [watchdogTick, h', h]
    · have h' : jsGe (.num t) (jsSub (.num 20) (.num (15 / 100))) = false := by
        simp only [jsSub, jsGe, decide_eq_false_iff_not]
        intro hc
        exact h (by linarith [show (20 : ℚ) - 15 / 100 = 19.85 by norm_num])
      simp [watchdogTick, h', h]
  · simp [jsSub]
    norm_num

/-- When the range guard `start > 0 && end > 0 && end > start` fails,
`ensureLoop` is the identity. -/
theorem ensureLoop_invalid (start endv : JSNum)
    (h : (jsGt start (.num 0) && jsGt endv (.num 0) && jsGt endv start) = false)
    (r : PortalRuntime) : ensureLoop start endv r = r := by
  simp [ensureLoop, h]

/-- C6: For a portal whose configured range is invalid (`rangeEnd = 0`, or
not `rangeEnd > rangeStart`, or not `rangeStart > 0`), starting from a
portal with no timer, no loop watchdog timer is ever created, however many
Playing transitions run `ensureLoop`. -/
theorem C6_invalid_range_never_starts_watchdog (start endv : JSNum)
    (h : endv = .num 0 ∨ jsGt endv start = false ∨ jsGt start (.num 0) = false)
    (r : PortalRuntime) (hr : r.loopTimer = none) (n : Nat) :
    ((ensureLoop start endv)^[n] r).loopTimer = none ∧
    ((ensureLoop start endv)^[n] r).activeTimers = r.activeTimers := by
  have hguard : (jsGt start (.num 0) && jsGt endv (.num 0) && jsGt endv start) = false := by
    rcases h with h | h | h
    · subst h
      simp [jsGt, Bool.and_eq_false_iff]
    · simp [h]
    · simp [h]
  have hfix : ensureLoop start endv r = r := ensureLoop_invalid start endv hguard r
  rw [Function.iterate_fixed hfix]
  exact ⟨hr, rfl⟩

/-- Witness for C6 with `rangeEnd = 0` and three Playing transitions. -/
theorem C6_invalid_range_never_starts_watchdog_witness :
    ((ensureLoop (.num 10) (.num 0))^[3] (PortalRuntime.mk none [] 0)).loopTimer = none ∧
    ((ensureLoop (.num 10) (.num 0))^[3] (PortalRuntime.mk none [] 0)).activeTimers =
      (PortalRuntime.mk none [] 0).activeTimers :=
  C6_invalid_range_never_starts_watchdog (.num 10) (.num 0) (Or.inl rfl)
    (PortalRuntime.mk none [] 0) rfl 3

/-- C7: Canceling a portal's loop watchdog is idempotent and total:
`clearLoop` never throws (it is a total function), canceling twice equals
canceling once, and after a cancel the portal has no `loopTimer` and no
live interval timer at all. -/
theorem C7_clearLoop_idempotent (r : PortalRuntime) (h : WFRuntime r) :
    clearLoop (clearLoop r) = clearLoop r ∧
    (clearLoop r).loopTimer = none ∧
    (clearLoop r).activeTimers = [] ∧
    WFRuntime (clearLoop r) := by
  obtain ⟨lt, act, nid⟩ := r
  unfold WFRuntime at h
  rcases lt with _ | t <;> simp_all [clearLoop, WFRuntime]

/-- Witness for C7 at a portal holding live timer 5. -/
theorem C7_clearLoop_idempotent_witness :
    clearLoop (clearLoop (PortalRuntime.mk (some 5) [5] 6)) =
        clearLoop (PortalRuntime.mk (some 5) [5] 6) ∧
    (clearLoop (PortalRuntime.mk (some 5) [5] 6)).loopTimer = none ∧
    (clearLoop (PortalRuntime.mk (some 5) [5] 6)).activeTimers = [] ∧
    WFRuntime (clearLoop (PortalRuntime.mk (some 5) [5] 6)) :=
  C7_clearLoop_idempotent (PortalRuntime.mk (some 5) [5] 6) (by decide)

/-- C9: For a portal created with `reducedMotion = true`, the player-ready
handler issues a mute and never an automatic play; the manual start
affordance issues mute followed by play — and its command list is the same
constant `startBtnClick` whatever the portal's reduced-motion flag, since
the click handler never reads it — and a play that reaches the player
produces the PLAYING state change, which marks the portal as playing. -/
theorem C9_reduced_motion_autoplay (p : PortalView) (start endv : JSNum) :
    onReady true = [PlayerCmd.mute] ∧
    PlayerCmd.playVideo ∉ onReady true ∧
    onReady false = [PlayerCmd.mute, PlayerCmd.playVideo] ∧
    startBtnClick = [PlayerCmd.mute, PlayerCmd.playVideo] ∧
    (onStateChange start endv YT_STATE_PLAYING p).1.isPlaying = true := by
  refine ⟨rfl, by decide, rfl, rfl, ?_⟩
  simp [onStateChange, YT_STATE_PLAYING]

/-- C10: A missing or non-numeric `data-start` / `data-end` attribute
parses to `0` or `NaN`; such a value passes neither the `> 0` offset guard
nor the bounded-range guard, so as a start value it is omitted from
`playerVars`, never lets the watchdog start, and suppresses the
end-of-media seek, and as an end value it is omitted from `playerVars` and
never lets the watchdog start; per-portal setup on such attributes still
completes, returning a configuration with both offsets omitted
(`initPortal` is a total function: no input throws). -/
theorem C10_unparsable_range_attributes (a : AttrVal)
    (h : a = .missing ∨ a = .nonNumeric) :
    (parseAttr a = .num 0 ∨ parseAttr a = .nan) ∧
    jsGt (parseAttr a) (.num 0) = false ∧
    (∀ reduce endv, (mkPlayerVars reduce (parseAttr a) endv).start = none) ∧
    (∀ reduce start, (mkPlayerVars reduce start (parseAttr a)).endv = none) ∧
    (∀ endv r n, r.loopTimer = none →
      ((ensureLoop (parseAttr a) endv)^[n] r).loopTimer = none) ∧
    (∀ start r n, r.loopTimer = none →
      ((ensureLoop start (parseAttr a))^[n] r).loopTimer = none) ∧
    (∀ endv p, (onStateChange (parseAttr a) endv YT_STATE_ENDED p).2 = []) ∧
    (∀ reduce v, v ≠ "" →
      initPortal reduce (PortalConfig.mk true (some v) a a) =
        some (PortalInit.mk (mkPlayerVars reduce (parseAttr a) (parseAttr a))
          (parseAttr a) (parseAttr a)) ∧
      (mkPlayerVars reduce (parseAttr a) (parseAttr a)).start = none ∧
      (mkPlayerVars reduce (parseAttr a) (parseAttr a)).endv = none) := by
  have hval : parseAttr a = .num 0 ∨ parseAttr a = .nan := by
    rcases h with h | h <;> subst h <;> simp [parseAttr]
  have hgt : jsGt (parseAttr a) (.num 0) = false := by
    rcases hval with h' | h' <;> rw [h'] <;> simp [jsGt]
  have hguardStart : ∀ endv,
      (jsGt (parseAttr a) (.num 0) && jsGt endv (.num 0) && jsGt endv (parseAttr a)) = false := by
    intro endv; simp [hgt]
  have hguardEnd : ∀ start,
      (jsGt start (.num 0) && jsGt (parseAttr a) (.num 0) && jsGt (parseAttr a) start) = false := by
    intro start; simp [hgt]
  refine ⟨hval, hgt, ?_, ?_, ?_, ?_, ?_, ?_⟩
  · intro reduce endv; simp [mkPlayerVars, hgt]
  · intro reduce start; simp [mkPlayerVars, hgt]
  · intro endv r n hr
    have hfix : ensureLoop (parseAttr a) endv r = r :=
      ensureLoop_invalid _ _ (hguardStart endv) r
    rw [Function.iterate_fixed hfix]; exact hr
  · intro start r n hr
    have hfix : ensureLoop start (parseAttr a) r = r :=
      ensureLoop_invalid _ _ (hguardEnd start) r
    rw [Function.iterate_fixed hfix]; exact hr
  · intro endv p
    simp [onStateChange, YT_STATE_ENDED, YT_STATE_PLAYING, hgt]
  · intro reduce v hv
    refine ⟨?_, by simp [mkPlayerVars, hgt], by simp [mkPlayerVars, hgt]⟩
    simp [initPortal, hv]

/-- Witness for C10 at a non-numeric attribute value. -/
theorem C10_unparsable_range_attributes_witness :
    (parseAttr .nonNumeric = .num 0 ∨ parseAttr .nonNumeric = .nan) ∧
    jsGt (parseAttr .nonNumeric) (.num 0) = false ∧
    (∀ reduce endv, (mkPlayerVars reduce (parseAttr .nonNumeric) endv).start = none) ∧
    (∀ reduce start, (mkPlayerVars reduce start (parseAttr .nonNumeric)).endv = none) ∧
    (∀ endv r n, r.loopTimer = none →
      ((ensureLoop (parseAttr .nonNumeric) endv)^[n] r).loopTimer = none) ∧
    (∀ start r n, r.loopTimer = none →
      ((ensureLoop start (parseAttr .nonNumeric))^[n] r).loopTimer = none) ∧
    (∀ endv p, (onStateChange (parseAttr .nonNumeric) endv YT_STATE_ENDED p).2 = []) ∧
    (∀ reduce v, v ≠ "" →
      initPortal reduce (PortalConfig.mk true (some v) .nonNumeric .nonNumeric) =
        some (PortalInit.mk
          (mkPlayerVars reduce (parseAttr .nonNumeric) (parseAttr .nonNumeric))
          (parseAttr .nonNumeric) (parseAttr .nonNumeric)) ∧
      (mkPlayerVars reduce (parseAttr .nonNumeric) (parseAttr .nonNumeric)).start = none ∧
      (mkPlayerVars reduce (parseAttr .nonNumeric) (parseAttr .nonNumeric)).endv = none) :=
  C10_unparsable_range_attributes .nonNumeric (Or.inr rfl)

/-- C1 counterexample: with two valid portals A then B on the page and a
player factory that throws for A, the `portals.forEach` pass produces only
the fault outcome: portal B — although perfectly valid — is never processed
at all (the run has one outcome, not two), so B's controller cannot
complete its initialization, refuting the claim that a construction fault
in A cannot prevent B from reaching Playing. -/
theorem C1_fault_containment_counterexample :
    initVideoPortalsRun false
      [PortalEnv.mk (PortalConfig.mk true (some "A") .missing .missing) true,
       PortalEnv.mk (PortalConfig.mk true (some "B") .missing .missing) false] =
      [.faulted] ∧
    (initVideoPortalsRun false
      [PortalEnv.mk (PortalConfig.mk true (some "A") .missing .missing) true,
       PortalEnv.mk (PortalConfig.mk true (some "B") .missing .missing) false]).length = 1 ∧
    initPortal false (PortalConfig.mk true (some "B") .missing .missing) ≠ none ∧
    InitOutcome.constructed ∉
      initVideoPortalsRun false
        [PortalEnv.mk (PortalConfig.mk true (some "A") .missing .missing) true,
         PortalEnv.mk (PortalConfig.mk true (some "B") .missing .missing) false] := by
  refine ⟨rfl, rfl, ?_, by decide⟩
  simp [initPortal]

/-- C1 amended: a fault thrown by the player factory for portal A aborts
the whole `portals.forEach` pass: every portal processed before A completes
its pass normally (constructed, or skipped when mount / video id is
missing), and no portal after A — in particular B when B follows A — is
processed at all, so only portals preceding the faulting one can reach
Playing. -/
theorem C1_fault_aborts_later_portals (reduce : Bool)
    (pre : List PortalEnv) (pA : PortalEnv) (post : List PortalEnv)
    (hA : initPortal reduce pA.cfg ≠ none) (hthrow : pA.ctorThrows = true)
    (hpre : ∀ p ∈ pre, p.ctorThrows = false ∨ initPortal reduce p.cfg = none) :
    initVideoPortalsRun reduce (pre ++ pA :: post) =
      pre.map (fun p => if (initPortal reduce p.cfg).isSome then
        InitOutcome.constructed else InitOutcome.skipped) ++ [.faulted] ∧
    (initVideoPortalsRun reduce (pre ++ pA :: post)).length = pre.length + 1 := by
  have hmain : initVideoPortalsRun reduce (pre ++ pA :: post) =
      pre.map (fun p => if (initPortal reduce p.cfg).isSome then
        InitOutcome.constructed else InitOutcome.skipped) ++ [.faulted] := by
    induction pre with
    | nil =>
      simp only [List.nil_append, List.map_nil]
      rcases hopt : initPortal reduce pA.cfg with _ | c
      · exact absurd hopt hA
      · simp [initVideoPortalsRun, hopt, hthrow]
    | cons p rest ih =>
      have hp := hpre p (List.mem_cons_self p rest)
      have hrest : ∀ q ∈ rest, q.ctorThrows = false ∨ initPortal reduce q.cfg = none :=
        fun q hq => hpre q (List.mem_cons_of_mem p hq)
      rcases hopt : initPortal reduce p.cfg with _ | c
      · simp [initVideoPortalsRun, hopt, ih hrest]
      · rcases hp with hp | hp
        · simp [initVideoPortalsRun, hopt, hp, ih hrest]
        · rw [hopt] at hp; exact absurd hp (by simp)
  refine ⟨hmain, ?_⟩
  rw [hmain]
  simp

/-- Witness for the amended C1 with no earlier portals, A faulting, and B
after A. -/
theorem C1_fault_aborts_later_portals_witness :
    initVideoPortalsRun false
      ([] ++ PortalEnv.mk (PortalConfig.mk true (some "A") .missing .missing) true ::
        [PortalEnv.mk (PortalConfig.mk true (some "B") .missing .missing) false]) =
      List.map (fun (p : PortalEnv) => if (initPortal false p.cfg).isSome then
        InitOutcome.constructed else InitOutcome.skipped) [] ++ [.faulted] ∧
    (initVideoPortalsRun false
      ([] ++ PortalEnv.mk (PortalConfig.mk true (some "A") .missing .missing) true ::
        [PortalEnv.mk (PortalConfig.mk true (some "B") .missing .missing) false])).length =
      List.length ([] : List PortalEnv) + 1 :=
  C1_fault_aborts_later_portals false []
    (PortalEnv.mk (PortalConfig.mk true (some "A") .missing .missing) true)
    [PortalEnv.mk (PortalConfig.mk true (some "B") .missing .missing) false]
    (by simp [initPortal]) rfl (by simp)

/-- C2 counterexample: for a portal whose watchdog timer 7 is live and
whose visibility subscription is active, the `pagehide` handler cancels the
watchdog but leaves the visibility subscription active, refuting the claim
that both cancelable resources are released on page unload. -/
theorem C2_pagehide_counterexample :
    (pagehideHandler
      (PortalResources.mk (PortalRuntime.mk (some 7) [7] 8) true)).runtime.loopTimer =
        none ∧
    (pagehideHandler
      (PortalResources.mk (PortalRuntime.mk (some 7) [7] 8) true)).visibilityObserverActive =
        true ∧
    ¬ ((pagehideHandler
      (PortalResources.mk (PortalRuntime.mk (some 7) [7] 8) true)).visibilityObserverActive =
        false) := by
  refine ⟨rfl, rfl, by decide⟩

/-- C2 amended: on `pagehide` each portal cancels its loop watchdog — the
timer variable is nulled and no live interval remains — but the visibility
subscription is not a released resource: the handler leaves it exactly as
it was. -/
theorem C2_pagehide_clears_only_watchdog (res : PortalResources)
    (h : WFRuntime res.runtime) :
    (pagehideHandler res).runtime.loopTimer = none ∧
    (pagehideHandler res).runtime.activeTimers = [] ∧
    (pagehideHandler res).visibilityObserverActive = res.visibilityObserverActive := by
  obtain ⟨⟨lt, act, nid⟩, vis⟩ := res
  unfold WFRuntime at h
  rcases lt with _ | t <;> simp_all [pagehideHandler, clearLoop]

/-- Witness for the amended C2 at a portal with live timer 7 and an active
visibility subscription. -/
theorem C2_pagehide_clears_only_watchdog_witness :
    (pagehideHandler
      (PortalResources.mk (PortalRuntime.mk (some 7) [7] 8) true)).runtime.loopTimer =
        none ∧
    (pagehideHandler
      (PortalResources.mk (PortalRuntime.mk (some 7) [7] 8) true)).runtime.activeTimers =
        [] ∧
    (pagehideHandler
      (PortalResources.mk (PortalRuntime.mk (some 7) [7] 8) true)).visibilityObserverActive =
      (PortalResources.mk (PortalRuntime.mk (some 7) [7] 8) true).visibilityObserverActive :=
  C2_pagehide_clears_only_watchdog
    (PortalResources.mk (PortalRuntime.mk (some 7) [7] 8) true) (by decide)

end Site
